import Mathlib

/-!
Verification development for the SpectraCell dashboard reconciliation pipeline
(`pages/single_month_merger.py` and `pages/monthly_breakdown.py`).

The source operates on pandas DataFrames.  The shallow embedding below models a
DataFrame column-wise and row-wise with lists: a CSV file is a header list plus
a list of rows of cell strings; the parsed outputs are lists of records.  A
pandas `groupby(...).agg(sum).reset_index()` is modelled by `groupSum`, which
produces exactly one entry per distinct key with the summed metric.  The source
orders groups by sorting on the key while `groupSum` uses first-occurrence
order; every property proved below is insensitive to row order, and where the
source additionally sorts rows (`merge_data`, `generate_alerts`) the sort is
modelled explicitly by an insertion sort, which is a permutation.

Numeric cells are coerced with `pd.to_numeric(errors='coerce').fillna(0)` in
the source; this is modelled by `toCount`, which parses an optionally signed
decimal integer literal and yields 0 on anything else.  Fractional literals are
outside the model (all quantities in the pipeline are tube counts).
-/

/-- Characters of the whitespace class stripped by `str.strip` /
`Series.str.strip()`. -/
def isWs (c : Char) : Bool := c = ' ' || c = '\t' || c = '\n' || c = '\r'

/-- Model of `str.strip()`: drop whitespace from both ends. -/
def stripStr (s : String) : String :=
  String.mk (((s.toList.dropWhile isWs).reverse.dropWhile isWs).reverse)

/-- Substring containment on character lists; models Python's `pat in s`. -/
def hasInfix (pat : List Char) : List Char → Bool
  | [] => pat.isEmpty
  | c :: cs => pat.isPrefixOf (c :: cs) || hasInfix pat cs

/-- Containment of `pat` in `s` as strings; models Python's `pat in s`. -/
def containsSub (pat s : String) : Bool := hasInfix pat.toList s.toList

/-- Model of `str.endswith(suf)` via character-list suffix test. -/
def endsWithStr (s suf : String) : Bool := suf.toList.isSuffixOf s.toList

/-- Value of a list of decimal digit characters. -/
def digitsVal (cs : List Char) : Nat :=
  cs.foldl (fun n c => 10 * n + (c.toNat - 48)) 0

/-- Parse an optionally signed decimal integer literal, as accepted by
`pd.to_numeric` for integral cells.  Returns `none` on anything else. -/
def intOfStr (s : String) : Option Int :=
  match s.toList with
  | [] => none
  | '-' :: cs =>
      if cs ≠ [] ∧ cs.all Char.isDigit then some (-(digitsVal cs : Int)) else none
  | cs =>
      if cs ≠ [] ∧ cs.all Char.isDigit then some ((digitsVal cs : Int)) else none

/-- Model of `pd.to_numeric(x, errors='coerce').fillna(0)` on one cell. -/
def toCount (s : String) : Int := (intOfStr s).getD 0

/-- Model of `pd.to_datetime(x, format='%Y%m', errors='coerce')`: a compact
six-digit `YYYYMM` string with a month in 1..12 yields `(year, month)`;
anything else coerces to `NaT` (`none`). -/
def parseYYYYMM (s : String) : Option (Nat × Nat) :=
  let cs := s.toList
  if cs.length = 6 ∧ cs.all Char.isDigit then
    let m := digitsVal (cs.drop 4)
    if 1 ≤ m ∧ m ≤ 12 then some (digitsVal (cs.take 4), m) else none
  else none

/-- Cell of a row at a column index; out-of-range reads give the empty cell
(pandas would give `NaN`, which every consumer coerces to 0 or drops). -/
def cellAt (r : List String) (i : Nat) : String := r.getD i ""

/-- Concatenation of the images of `f`, i.e. `List.bind`; spelled out so that
all its equations hold definitionally. -/
def listBind (l : List α) (f : α → List β) : List β :=
  match l with
  | [] => []
  | a :: as => f a ++ listBind as f

/-- Model of `DataFrame.groupby(keys).agg(metric = sum).reset_index()`: one
entry per distinct key carrying the sum of the metric over that key's rows.
The source orders groups by sorted key; this model uses first-occurrence
order, a permutation that no property below observes. -/
def groupSum {K : Type} [DecidableEq K] (l : List (K × Int)) : List (K × Int) :=
  (l.map Prod.fst).dedup.map
    (fun k => (k, ((l.filter (fun p => p.1 = k)).map Prod.snd).sum))

/-- Insert into a sorted list according to the boolean relation `le`. -/
def insertLe (le : α → α → Bool) (a : α) : List α → List α
  | [] => [a]
  | b :: bs => if le a b then a :: b :: bs else b :: insertLe le a bs

/-- Insertion sort; models `DataFrame.sort_values` (which is not stable by
default, so any correct sort is a faithful model). -/
def sortLe (le : α → α → Bool) : List α → List α
  | [] => []
  | a :: as => insertLe le a (sortLe le as)

/-- Error outcomes of `parse_contents`.  The source returns message strings;
the constructors record the error kind and, for a missing structurally
required column, its name.  `pandasError` stands for the broad
`except Exception` path that wraps any uncaught pandas error (for example the
`KeyError` raised when a column accessed by name is absent). -/
inductive ParseError : Type
  | unsupportedFileName : ParseError
  | malformedInput (msg : String) : ParseError
  | missingRequiredColumn (col : String) : ParseError
  | noKitColumnsFound : ParseError
  | pandasError (msg : String) : ParseError
deriving DecidableEq

/-- Fixed closed set of tube types (`['ACD', 'Blue', 'Lav', 'SST']` in both
source files). -/
def tube_types : List String := ["ACD", "Blue", "Lav", "SST"]

/-- Kit-to-tube catalog of `single_month_merger.py`, verbatim: kit description
to the list of (tube type, tubes per kit) pairs. -/
def kit_to_tube : List (String × List (String × Int)) :=
  [("MNT & Telomere Kit (2 ACD, 1 Blue Sodium Citrate)", [("ACD", 2), ("Blue", 1)]),
   ("MNT Kit Only (2 ACD)", [("ACD", 2)]),
   ("MTHFR Kit (1 Blue Sodium Citrate)", [("Blue", 1)]),
   ("Telomere Kit (1 Blue Sodium Citrate)", [("Blue", 1)]),
   ("Tube - ACD (8.5 mL) Yellow Tops", [("ACD", 1)]),
   ("Tube - Lt. Blue (3mL) Telo/MTHFR-Sodium Citrate", [("Blue", 1)]),
   ("Tube - SST (7.5 mL) Tiger Top", [("SST", 1)]),
   ("MNT & Tel. 1 Blue Sor", [("ACD", 2), ("Blue", 1)]),
   ("MNT Kit O", [("ACD", 2)]),
   ("Tube - ACD Tube", [("ACD", 1)]),
   ("Tube - Lt. LTtube", [("Blue", 1)]),
   ("-SST MNT Kit Only (2 ACD)", [("SST", 1), ("ACD", 2)])]

/-- Tubes of type `tt` contributed per kit of description `desc`: dictionary
lookup in `kit_to_tube`; an unknown description or a tube type absent from the
entry contributes 0. -/
def tubeQty (desc tt : String) : Int :=
  match kit_to_tube.lookup desc with
  | none => 0
  | some e => (e.lookup tt).getD 0

/-- Outcome of the source's `int(float(header_row1[i]))` attempt on a row-0
month token.  Three cases are reachable: the token converts to an integer
(`parsed m`); `float()` (or `int()` on a NaN) raises `ValueError`, which the
`except ValueError` handler catches, naming the column with the
`_Month_Unknown_i` placeholder (`valueErr`); or `float()` accepts the token as
an infinity — e.g. `"inf"` or `"1e400"` — and `int()` raises `OverflowError`,
which `except ValueError` does not catch, so it escapes to the broad handler
and aborts the whole file (`overflowErr`). -/
inductive MonthTok : Type
  | parsed (m : Int) : MonthTok
  | valueErr : MonthTok
  | overflowErr : MonthTok
deriving DecidableEq

/-- Parsed month number of a token; only consulted on `parsed` tokens. -/
def monthVal : MonthTok → Int
  | .parsed m => m
  | _ => 0

/-- Data column (index at least 4) of an outbound file.  `monthTok` is the
outcome of the source's `int(float(header_row1[i]))` attempt on the row-0
month token; `desc` is the stripped row-1 kit description.  The source encodes
the pair into the column name `desc ++ "_Month_" ++ m` (or a
`_Month_Unknown_i` placeholder) and later decodes it by splitting on
`"_Month_"`; the model keeps the pair structural, which is exact whenever kit
descriptions do not themselves contain the literal text `_Month_` followed by
a digit (no catalog key does). -/
structure OutCol : Type where
  monthTok : MonthTok
  desc : String
deriving DecidableEq

/-- A column whose month token raises the uncaught `OverflowError` during the
header loop, aborting the outbound parse. -/
def isOverflowCol (c : OutCol) : Bool :=
  match c.monthTok with
  | .overflowErr => true
  | _ => false

/-- Data row of an outbound file: the four fixed identity columns after the
source's rename (`Host Code` to `Order_ID`, `Organization Name` to `Location`,
`Territory Name` to `Location_Code`, `Sales Rep Full Name` to `SalesRep`),
plus the raw cells of the data columns in column order. -/
structure OutRecord : Type where
  Order_ID : String
  Location : String
  Location_Code : String
  SalesRep : String
  cells : List String
deriving DecidableEq

/-- Outbound file after the two header rows are read: the data columns (index
at least 4) and the data rows (row index at least 2).  The model covers files
that contain the two header rows and the four fixed identity columns; the
guards for an empty file, fewer than two rows, and fewer than four columns
(each an early error return in the source) are upstream of everything proved
here. -/
structure OutFile : Type where
  dataCols : List OutCol
  records : List OutRecord
deriving DecidableEq

/-- A column is melted as a month column when its synthesized name matches the
regex `_Month_\d+`, i.e. when the month token parsed to a non-negative
integer (the `_Month_Unknown_i` placeholder and negative months never match
and the column is left among the melt id-vars, contributing no rows). -/
def isMonthCol (c : OutCol) : Bool :=
  match c.monthTok with
  | .parsed m => decide (0 ≤ m)
  | _ => false

/-- A column survives to the final output only when its month is an actual
calendar month: `pd.to_datetime(f"{year}-{m}-01", errors='coerce')` is
non-`NaT` exactly for months 1..12. -/
def goodCol (c : OutCol) : Bool :=
  match c.monthTok with
  | .parsed m => decide (1 ≤ m ∧ m ≤ 12)
  | _ => false

/-- One melted record of the first `melt`: identity location, month number,
kit description, and the numerically coerced kit count. -/
structure MeltedRow : Type where
  Location : String
  month : Int
  KitDescription : String
  KitCount : Int
deriving DecidableEq

/-- Melt of one (month column, cell) pair of a data row with location `loc`:
month columns produce an intermediate record, id-var columns produce
nothing. -/
def meltCell (loc : String) (cc : OutCol × String) : Option MeltedRow :=
  if isMonthCol cc.1 then
    some { Location := loc, month := monthVal cc.1.monthTok,
           KitDescription := cc.1.desc, KitCount := toCount cc.2 }
  else none

/-- First melt of the outbound frame: one intermediate record per (data row,
month column) pair.  Pandas emits these column-outer; the model emits them
row-outer, a permutation that no property below observes. -/
def outMelt (f : OutFile) : List MeltedRow :=
  listBind f.records (fun r => (f.dataCols.zip r.cells).filterMap (meltCell r.Location))

/-- Survival of the `dropna(subset=['YearMonth'])` filter: the constructed
date `f"{year}-{month}-01"` parses exactly when the month is 1..12. -/
def monthOK (r : MeltedRow) : Bool := decide (1 ≤ r.month ∧ r.month ≤ 12)

/-- Melted records surviving the two row filters of the source, in order:
`dropna(subset=['YearMonth'])` and `KitCount > 0`. -/
def goodMelt (f : OutFile) : List MeltedRow :=
  ((outMelt f).filter monthOK).filter (fun r => decide (0 < r.KitCount))

/-- Composite join key: (location, year-month, tube type). -/
abbrev MKey : Type := String × (Nat × Nat) × String

/-- Normalized outbound row: the columns of `df_outbound_tubes` after the
final `groupby(['Location', 'YearMonth', 'TubeType'])`. -/
structure ORow : Type where
  Location : String
  YearMonth : Nat × Nat
  TubeType : String
  TubesSent : Int
deriving DecidableEq

/-- Join key of a normalized outbound row. -/
def oKey (o : ORow) : MKey := (o.Location, o.YearMonth, o.TubeType)

/-- Second melt plus the `TubesSent > 0` filter: one keyed contribution per
(tube type, surviving melted record) with `kit_count * qty_per_kit` tubes. -/
def outTubePairs (year : Nat) (f : OutFile) : List (MKey × Int) :=
  listBind tube_types (fun tt =>
    (goodMelt f).filterMap (fun r =>
      let amt := r.KitCount * tubeQty r.KitDescription tt
      if 0 < amt then
        some ((r.Location, (year, r.month.toNat), tt), amt)
      else none))

/-- Outbound branch of `parse_contents`.  The header loop runs first: a month
token whose float is infinite raises an uncaught `OverflowError` there,
aborting the whole file through the broad exception handler.  Otherwise the
branch fails with `NoKitColumnsFound` when no column name matches
`_Month_\d+`, and else melts, decomposes kits into tubes and aggregates by
(location, year-month, tube type).  `year` is the processing year
(`datetime.datetime.now().year` in the source). -/
def outboundParse (year : Nat) (f : OutFile) : Except ParseError (List ORow) :=
  if f.dataCols.any isOverflowCol then .error (.pandasError "OverflowError")
  else if f.dataCols.any isMonthCol then
    .ok ((groupSum (outTubePairs year f)).map
      (fun p => { Location := p.1.1, YearMonth := p.1.2.1, TubeType := p.1.2.2,
                  TubesSent := p.2 }))
  else .error .noKitColumnsFound

/-- Outbound file with the data columns whose month does not parse to 1..12
removed, together with their cells. -/
def keepGoodCols (f : OutFile) : OutFile :=
  { dataCols := f.dataCols.filter goodCol,
    records := f.records.map (fun r =>
      { r with cells :=
          ((f.dataCols.zip r.cells).filter (fun cc => goodCol cc.1)).map Prod.snd }) }

/-- Rectangular outbound file: every data row has one cell per data column. -/
abbrev OutRect (f : OutFile) : Prop :=
  ∀ r ∈ f.records, r.cells.length = f.dataCols.length

/-- Inbound file as read with `header=None`: row 0 is the header, the
remaining rows are data. -/
structure InFile : Type where
  header : List String
  rows : List (List String)
deriving DecidableEq

/-- Column rename applied to the inbound header: `color` to `TubeType` and
`Num` to `Count`. -/
def renameCol (s : String) : String :=
  if s = "color" then "TubeType" else if s = "Num" then "Count" else s

/-- Inbound header after `columns.str.strip()` and the rename. -/
def rHeader (h : List String) : List String := h.map (fun s => renameCol (stripStr s))

/-- Index of a named column in the processed inbound header (first occurrence,
as for a DataFrame with unique column labels). -/
def colIdx (h : List String) (name : String) : Option Nat :=
  (rHeader h).findIdx? (fun s => s = name)

/-- Values of a named column of an inbound file, row by row. -/
def colVals (f : InFile) (name : String) : List String :=
  match colIdx f.header name with
  | some i => f.rows.map (fun r => cellAt r i)
  | none => []

/-- Normalized inbound row: the columns of `df_inbound_agg` after
`groupby(['Location', 'YearMonth', 'TubeType'])`. -/
structure IRow : Type where
  Location : String
  YearMonth : Nat × Nat
  TubeType : String
  SamplesReturned : Int
deriving DecidableEq

/-- Join key of a normalized inbound row. -/
def iKey (i : IRow) : MKey := (i.Location, i.YearMonth, i.TubeType)

/-- Keyed count contributions of the inbound rows that survive the
`dropna(subset=['YearMonth'])` filter, given the four column indices. -/
def inPairs (li yi ti ci : Nat) (rows : List (List String)) : List (MKey × Int) :=
  rows.filterMap (fun r =>
    match parseYYYYMM (cellAt r yi) with
    | some ym => some ((cellAt r li, ym, cellAt r ti), toCount (cellAt r ci))
    | none => none)

/-- Inbound branch of `parse_contents`.  The source, in order: coerces the
`Count` column (a `KeyError` if absent, caught by the broad handler), checks
for `YearMonth` and returns the missing-column error naming it, parses
`YearMonth` as `%Y%m` dropping unparseable rows, and aggregates by
(`Location`, `YearMonth`, `TubeType`) — a `KeyError` if either of those two
columns is absent.  Location-id and territory columns are never consulted. -/
def inboundParse (f : InFile) : Except ParseError (List IRow) :=
  match colIdx f.header "Count" with
  | none => .error (.pandasError "KeyError: Count")
  | some ci =>
    if "YearMonth" ∈ rHeader f.header then
      match colIdx f.header "Location", colIdx f.header "TubeType" with
      | some li, some ti =>
        let yi := (colIdx f.header "YearMonth").getD 0
        .ok ((groupSum (inPairs li yi ti ci f.rows)).map
          (fun p => { Location := p.1.1, YearMonth := p.1.2.1, TubeType := p.1.2.2,
                      SamplesReturned := p.2 }))
      | _, _ => .error (.pandasError "KeyError: groupby")
    else .error (.missingRequiredColumn "YearMonth")

/-- Reconciled row: the columns of `merged_df` in `merge_data` (the derived
`YearMonth_Display` string is the injective image `%Y-%m` of `YearMonth` and
is not modelled separately). -/
structure MergedRow : Type where
  Location : String
  YearMonth : Nat × Nat
  TubeType : String
  TubesSent : Int
  SamplesReturned : Int
  RemainingKits : Int
deriving DecidableEq

/-- Join key of a reconciled row. -/
def mKey (r : MergedRow) : MKey := (r.Location, r.YearMonth, r.TubeType)

/-- Merge result rows produced by one left (outbound) row: paired with every
key-matching right (inbound) row, or zero-filled when none matches. -/
def mergeLeftBlock (I : List IRow) (o : ORow) : List MergedRow :=
  if (I.filter (fun i => iKey i = oKey o)).isEmpty then
    [{ Location := o.Location, YearMonth := o.YearMonth, TubeType := o.TubeType,
       TubesSent := o.TubesSent, SamplesReturned := 0,
       RemainingKits := o.TubesSent - 0 }]
  else (I.filter (fun i => iKey i = oKey o)).map (fun i =>
    { Location := o.Location, YearMonth := o.YearMonth, TubeType := o.TubeType,
      TubesSent := o.TubesSent, SamplesReturned := i.SamplesReturned,
      RemainingKits := o.TubesSent - i.SamplesReturned })

/-- Full outer merge of `pd.merge(..., on=['Location', 'YearMonth',
'TubeType'], how='outer').fillna(0)` followed by the column assignment
`RemainingKits = TubesSent - SamplesReturned`: left rows paired with every
key-matching right row (or zero-filled when none matches), then the unmatched
right rows zero-filled. -/
def outerMergeRows (O : List ORow) (I : List IRow) : List MergedRow :=
  listBind O (mergeLeftBlock I)
  ++ (I.filter (fun i => !(O.any (fun o => oKey o = iKey i)))).map (fun i =>
      { Location := i.Location, YearMonth := i.YearMonth, TubeType := i.TubeType,
        TubesSent := 0, SamplesReturned := i.SamplesReturned,
        RemainingKits := 0 - i.SamplesReturned })

/-- Strict lexicographic code-point order on character lists, the order pandas
uses to sort string columns. -/
def charsLt : List Char → List Char → Bool
  | [], [] => false
  | [], _ :: _ => true
  | _ :: _, [] => false
  | a :: as, b :: bs =>
      if a.toNat < b.toNat then true
      else if b.toNat < a.toNat then false
      else charsLt as bs

/-- Strict code-point order on strings. -/
def strLtB (a b : String) : Bool := charsLt a.toList b.toList

/-- Row order of `sort_values(by=['YearMonth', 'Location', 'TubeType'])`. -/
def mergedLe (a b : MergedRow) : Bool :=
  decide (a.YearMonth.1 < b.YearMonth.1) ||
  (decide (a.YearMonth.1 = b.YearMonth.1) &&
    (decide (a.YearMonth.2 < b.YearMonth.2) ||
     (decide (a.YearMonth.2 = b.YearMonth.2) &&
       (strLtB a.Location b.Location ||
        (decide (a.Location = b.Location) &&
          (strLtB a.TubeType b.TubeType || decide (a.TubeType = b.TubeType)))))))

/-- Core of the `merge_data` callback, on the two parsed inputs (the callback
additionally round-trips both frames through JSON, returns the
"insufficient data" message when either store is empty, and renders
`YearMonth_Display`; none of that changes the rows). -/
def merge_data (O : List ORow) (I : List IRow) : List MergedRow :=
  sortLe mergedLe (outerMergeRows O I)

/-- Descending order on summed totals used by
`sort_values(by=['TotalUnusedKits'], ascending=False)`. -/
def totalDesc (a b : (String × (Nat × Nat)) × Int) : Bool := decide (b.2 ≤ a.2)

/-- Core of the `generate_alerts` callback: `none` models the early return for
an invalid (negative) threshold; otherwise rows with `RemainingKits` strictly
above the threshold are grouped by (`Location`, `YearMonth_Display`) — the
display string determines `(year, month)`, so the model keys on the pair —
summing `RemainingKits`, sorted descending by the total.  No exclusion marker
of any kind is consulted. -/
def generate_alerts (rows : List MergedRow) (threshold : Int) :
    Option (List ((String × (Nat × Nat)) × Int)) :=
  if threshold < 0 then none
  else some (sortLe totalDesc (groupSum
    ((rows.filter (fun r => decide (threshold < r.RemainingKits))).map
      (fun r => ((r.Location, r.YearMonth), r.RemainingKits)))))

/-- Incoming aggregation of `monthly_breakdown.py` (lines 150-154): the
`TubeType.isin(categories)` filter, the groupby-sum over `Count`, and the
reindex over the fixed categories with `fill_value=0`, on the (tube type,
coerced count) pairs of the incoming frame. -/
def month_total_incoming (rows : List (String × Int)) : List (String × Int) :=
  tube_types.map (fun c => (c, ((rows.filter (fun p => p.1 = c)).map Prod.snd).sum))

/-- Uploaded contents as seen by the two branches of `parse_contents`: the
same decoded bytes read as an outbound two-header-row table or as an inbound
single-header table.  Only the branch selected by the filename ever reads its
view. -/
structure UploadView : Type where
  outView : OutFile
  inView : InFile

/-- Filename dispatch of `parse_contents`: `is_outbound = "out_" in filename`
and `is_inbound = "in_" in filename`, then the outbound branch when
`is_outbound and filename.endswith(".csv")`, else the inbound branch when
`is_inbound and filename.endswith(".csv")`, else the unsupported-file-name
error. -/
def parse_contents (year : Nat) (contents : UploadView) (filename : String) :
    Except ParseError (Sum (List ORow) (List IRow)) :=
  if containsSub "out_" filename && endsWithStr filename ".csv" then
    (outboundParse year contents.outView).map Sum.inl
  else if containsSub "in_" filename && endsWithStr filename ".csv" then
    (inboundParse contents.inView).map Sum.inr
  else .error .unsupportedFileName

theorem mem_listBind {α β : Type} {l : List α} {f : α → List β} {b : β} :
    b ∈ listBind l f ↔ ∃ a ∈ l, b ∈ f a := by
  induction l with
  | nil => simp [listBind]
  | cons a as ih => simp [listBind, List.mem_append, ih]

theorem filter_listBind {α β : Type} (p : β → Bool) (l : List α) (f : α → List β) :
    (listBind l f).filter p = listBind l (fun a => (f a).filter p) := by
  induction l with
  | nil => rfl
  | cons a as ih => simp [listBind, List.filter_append, ih]

theorem map_listBind {α β γ : Type} (g : β → γ) (l : List α) (f : α → List β) :
    (listBind l f).map g = listBind l (fun a => (f a).map g) := by
  induction l with
  | nil => rfl
  | cons a as ih => simp [listBind, ih]

theorem listBind_map {α β γ : Type} (g : α → γ) (l : List α) (f : γ → List β) :
    listBind (l.map g) f = listBind l (fun a => f (g a)) := by
  induction l with
  | nil => rfl
  | cons a as ih => simp [listBind, ih]

theorem listBind_congr {α β : Type} {l : List α} {f g : α → List β}
    (h : ∀ a ∈ l, f a = g a) : listBind l f = listBind l g := by
  induction l with
  | nil => rfl
  | cons a as ih =>
    simp only [listBind]
    rw [h a (by simp), ih (fun x hx => h x (by simp [hx]))]

theorem insertLe_perm {α : Type} (le : α → α → Bool) (a : α) (l : List α) :
    (insertLe le a l).Perm (a :: l) := by
  induction l with
  | nil => exact List.Perm.refl _
  | cons b bs ih =>
    simp only [insertLe]
    by_cases h : le a b = true
    · simp [h]
    · simp only [h, if_false]
      exact (ih.cons b).trans (List.Perm.swap a b bs)

theorem sortLe_perm {α : Type} (le : α → α → Bool) (l : List α) :
    (sortLe le l).Perm l := by
  induction l with
  | nil => exact List.Perm.refl _
  | cons a as ih =>
    simp only [sortLe]
    exact (insertLe_perm le a (sortLe le as)).trans (ih.cons a)

theorem zip_fst_snd {α β : Type} (l : List (α × β)) :
    (l.map Prod.fst).zip (l.map Prod.snd) = l := by
  induction l with
  | nil => rfl
  | cons p t ih => simp [ih]

theorem groupSum_map_fst {K : Type} [DecidableEq K] (l : List (K × Int)) :
    (groupSum l).map Prod.fst = (l.map Prod.fst).dedup := by
  simp only [groupSum, List.map_map]
  exact List.map_id _

theorem groupSum_keys_nodup {K : Type} [DecidableEq K] (l : List (K × Int)) :
    ((groupSum l).map Prod.fst).Nodup := by
  rw [groupSum_map_fst]
  exact List.nodup_dedup _

theorem mem_groupSum {K : Type} [DecidableEq K] {l : List (K × Int)} {p : K × Int}
    (h : p ∈ groupSum l) :
    p.1 ∈ l.map Prod.fst ∧
      p.2 = ((l.filter (fun q => q.1 = p.1)).map Prod.snd).sum := by
  unfold groupSum at h
  rcases List.mem_map.1 h with ⟨k, hk, hp⟩
  rw [← hp]
  exact ⟨List.mem_dedup.1 hk, rfl⟩

theorem mem_map_fst_groupSum {K : Type} [DecidableEq K] {l : List (K × Int)} {k : K} :
    k ∈ (groupSum l).map Prod.fst ↔ k ∈ l.map Prod.fst := by
  rw [groupSum_map_fst]
  exact List.mem_dedup

theorem goodCol_isMonthCol {c : OutCol} (h : goodCol c = true) : isMonthCol c = true := by
  unfold goodCol at h
  unfold isMonthCol
  cases hm : c.monthTok with
  | parsed m =>
    rw [hm] at h
    simp only [decide_eq_true_eq] at h ⊢
    omega
  | valueErr => rw [hm] at h; cases h
  | overflowErr => rw [hm] at h; cases h

theorem colIdx_eq_none_iff {h : List String} {n : String} :
    colIdx h n = none ↔ n ∉ rHeader h := by
  unfold colIdx
  rw [List.findIdx?_eq_none_iff]
  constructor
  · intro H hn
    have := H n hn
    simp at this
  · intro H x hx
    simp only [decide_eq_false_iff_not]
    intro hxn
    exact H (hxn ▸ hx)

/-- Claim C7: for every (contents, filename) input where the filename neither
(contains "out_" and ends with ".csv") nor (contains "in_" and ends with
".csv"), `parse_contents` returns the unsupported-file-name error and no
normalized rows. -/
theorem parse_contents_unsupported_name (year : Nat) (u : UploadView) (fn : String)
    (h1 : ¬(containsSub "out_" fn = true ∧ endsWithStr fn ".csv" = true))
    (h2 : ¬(containsSub "in_" fn = true ∧ endsWithStr fn ".csv" = true)) :
    parse_contents year u fn = .error .unsupportedFileName := by
  have g1 : ¬((containsSub "out_" fn && endsWithStr fn ".csv") = true) := by
    rw [Bool.and_eq_true]
    exact h1
  have g2 : ¬((containsSub "in_" fn && endsWithStr fn ".csv") = true) := by
    rw [Bool.and_eq_true]
    exact h2
  unfold parse_contents
  rw [if_neg g1, if_neg g2]

theorem parse_contents_unsupported_name_witness :
    (¬(containsSub "out_" "report.txt" = true ∧ endsWithStr "report.txt" ".csv" = true))
    ∧ (¬(containsSub "in_" "report.txt" = true ∧ endsWithStr "report.txt" ".csv" = true))
    ∧ parse_contents 2025 ⟨⟨[], []⟩, ⟨[], []⟩⟩ "report.txt" = .error .unsupportedFileName :=
  ⟨by decide, by decide,
    parse_contents_unsupported_name 2025 ⟨⟨[], []⟩, ⟨[], []⟩⟩ "report.txt"
      (by decide) (by decide)⟩

/-- Claim C10: a filename containing both "out_" and "in_" and ending with
".csv" is processed by the outbound branch; the inbound branch is never
reached for it. -/
theorem parse_contents_outbound_precedence (year : Nat) (u : UploadView) (fn : String)
    (h1 : containsSub "out_" fn = true) (h2 : containsSub "in_" fn = true)
    (h3 : endsWithStr fn ".csv" = true) :
    parse_contents year u fn = (outboundParse year u.outView).map Sum.inl
    ∧ ∀ rowsI : List IRow, parse_contents year u fn ≠ .ok (Sum.inr rowsI) := by
  have g1 : (containsSub "out_" fn && endsWithStr fn ".csv") = true := by
    rw [Bool.and_eq_true]
    exact ⟨h1, h3⟩
  have hmain : parse_contents year u fn = (outboundParse year u.outView).map Sum.inl := by
    unfold parse_contents
    rw [if_pos g1]
  refine ⟨hmain, ?_⟩
  intro rowsI hcon
  rw [hmain] at hcon
  cases hout : outboundParse year u.outView with
  | ok rows => rw [hout] at hcon; simp [Except.map] at hcon
  | error e => rw [hout] at hcon; simp [Except.map] at hcon

theorem parse_contents_outbound_precedence_witness :
    containsSub "out_" "out_in_2025.csv" = true
    ∧ containsSub "in_" "out_in_2025.csv" = true
    ∧ endsWithStr "out_in_2025.csv" ".csv" = true
    ∧ (parse_contents 2025 ⟨⟨[], []⟩, ⟨[], []⟩⟩ "out_in_2025.csv" =
        (outboundParse 2025 (⟨[], []⟩ : OutFile)).map Sum.inl
      ∧ ∀ rowsI : List IRow,
          parse_contents 2025 ⟨⟨[], []⟩, ⟨[], []⟩⟩ "out_in_2025.csv" ≠ .ok (Sum.inr rowsI)) :=
  ⟨by decide, by decide, by decide,
    parse_contents_outbound_precedence 2025 ⟨⟨[], []⟩, ⟨[], []⟩⟩ "out_in_2025.csv"
      (by decide) (by decide) (by decide)⟩

/-- Claim C2: in every reconciled row, a key with no corresponding outbound
row has `TubesSent = 0`, and a key with no corresponding inbound row has
`SamplesReturned = 0` (the zero-fill of the outer merge). -/
theorem merge_data_zero_fill (O : List ORow) (I : List IRow) :
    ∀ r ∈ merge_data O I,
      (mKey r ∉ O.map oKey → r.TubesSent = 0) ∧
      (mKey r ∉ I.map iKey → r.SamplesReturned = 0) := by
  intro r hr
  have hr' : r ∈ outerMergeRows O I := ((sortLe_perm mergedLe _).mem_iff).1 hr
  unfold outerMergeRows at hr'
  rcases List.mem_append.1 hr' with hl | hrr
  · rcases mem_listBind.1 hl with ⟨o, ho, hro⟩
    unfold mergeLeftBlock at hro
    by_cases hms : (I.filter (fun i => iKey i = oKey o)).isEmpty = true
    · rw [if_pos hms] at hro
      rcases List.mem_singleton.1 hro with rfl
      constructor
      · intro hno
        exact absurd (List.mem_map.2 ⟨o, ho, rfl⟩) hno
      · intro _
        rfl
    · rw [if_neg hms] at hro
      rcases List.mem_map.1 hro with ⟨i, hi, rfl⟩
      have hik : iKey i = oKey o := by
        have := (List.mem_filter.1 hi).2
        simpa using this
      constructor
      · intro hno
        exact absurd (List.mem_map.2 ⟨o, ho, rfl⟩) hno
      · intro hno
        exact absurd (List.mem_map.2 ⟨i, (List.mem_filter.1 hi).1, hik⟩)
          (by simpa [mKey, oKey] using hno)
  · rcases List.mem_map.1 hrr with ⟨i, hi, rfl⟩
    constructor
    · intro _
      rfl
    · intro hno
      exact absurd (List.mem_map.2 ⟨i, (List.mem_filter.1 hi).1, rfl⟩) hno

theorem listBind_singleton {α β : Type} (l : List α) (g : α → β) :
    listBind l (fun a => [g a]) = l.map g := by
  induction l with
  | nil => rfl
  | cons a as ih => simp [listBind, ih]

theorem filter_key_length_le_one {I : List IRow} (hI : (I.map iKey).Nodup) (k : MKey) :
    (I.filter (fun i => iKey i = k)).length ≤ 1 := by
  induction I with
  | nil => simp
  | cons i t ih =>
    simp only [List.map_cons, List.nodup_cons] at hI
    rw [List.filter_cons]
    by_cases hik : iKey i = k
    · rw [if_pos (by simpa using hik)]
      have hnil : t.filter (fun j => iKey j = k) = [] := by
        rw [List.filter_eq_nil_iff]
        intro j hj hjk
        apply hI.1
        rw [List.mem_map]
        refine ⟨j, hj, ?_⟩
        have : iKey j = k := by simpa using hjk
        rw [this, hik]
      simp [hnil]
    · rw [if_neg (by simpa using hik)]
      exact ih hI.2

theorem mergeLeftBlock_map_key {I : List IRow} (hI : (I.map iKey).Nodup) (o : ORow) :
    (mergeLeftBlock I o).map mKey = [oKey o] := by
  unfold mergeLeftBlock
  by_cases hms : (I.filter (fun i => iKey i = oKey o)).isEmpty = true
  · rw [if_pos hms]
    rfl
  · rw [if_neg hms]
    have hne : I.filter (fun i => iKey i = oKey o) ≠ [] := by
      intro hnil
      rw [hnil] at hms
      exact hms rfl
    have hlen1 : (I.filter (fun i => iKey i = oKey o)).length = 1 := by
      have hle := filter_key_length_le_one hI (oKey o)
      have hpos : 0 < (I.filter (fun i => iKey i = oKey o)).length :=
        List.length_pos.2 hne
      omega
    rcases List.length_eq_one.1 hlen1 with ⟨i, hi⟩
    rw [hi]
    rfl

theorem outerMerge_map_key (O : List ORow) (I : List IRow)
    (hI : (I.map iKey).Nodup) :
    (outerMergeRows O I).map mKey =
      O.map oKey ++
        (I.filter (fun i => !(O.any (fun o => oKey o = iKey i)))).map iKey := by
  unfold outerMergeRows
  rw [List.map_append]
  congr 1
  · rw [map_listBind, listBind_congr (fun o _ => mergeLeftBlock_map_key hI o)]
    exact listBind_singleton O oKey
  · rw [List.map_map]
    rfl

/-- Claim C1: `merge_data` produces exactly one reconciled row per distinct
(location, year-month, tube-type) key present in either input (here: its key
column has no duplicates and its members are exactly the union of the input
keys), and every reconciled row satisfies `remaining = tubes_sent -
samples_returned` exactly, with a negative, unclamped value whenever
`tubes_sent < samples_returned`.  The hypotheses state that each input has
key-distinct rows, which holds for every output of the two parsers (their
final aggregation is a group-by; see `outboundParse_keys_nodup` and
`inboundParse_keys_nodup`). -/
theorem merge_data_round_trip (O : List ORow) (I : List IRow)
    (hO : (O.map oKey).Nodup) (hI : (I.map iKey).Nodup) :
    ((merge_data O I).map mKey).Nodup
    ∧ (∀ k : MKey, k ∈ (merge_data O I).map mKey ↔ (k ∈ O.map oKey ∨ k ∈ I.map iKey))
    ∧ ∀ r ∈ merge_data O I,
        r.RemainingKits = r.TubesSent - r.SamplesReturned
        ∧ (r.TubesSent < r.SamplesReturned → r.RemainingKits < 0) := by
  have hperm : (merge_data O I).Perm (outerMergeRows O I) := sortLe_perm mergedLe _
  have hmapperm : ((merge_data O I).map mKey).Perm ((outerMergeRows O I).map mKey) :=
    hperm.map mKey
  have hkeys := outerMerge_map_key O I hI
  refine ⟨?_, ?_, ?_⟩
  · rw [hmapperm.nodup_iff, hkeys]
    refine List.Nodup.append hO ?_ ?_
    · exact ((List.filter_sublist I).map iKey).nodup hI
    · rw [List.disjoint_left]
      intro k hkO hkR
      rcases List.mem_map.1 hkR with ⟨i, hifil, rfl⟩
      have hcond := (List.mem_filter.1 hifil).2
      rw [Bool.not_eq_true', List.any_eq_false] at hcond
      rcases List.mem_map.1 hkO with ⟨o, hoO, hok⟩
      exact absurd (decide_eq_true hok) (by simpa using hcond o hoO)
  · intro k
    rw [hmapperm.mem_iff, hkeys, List.mem_append]
    constructor
    · rintro (h | h)
      · exact Or.inl h
      · rcases List.mem_map.1 h with ⟨i, hi, rfl⟩
        exact Or.inr (List.mem_map.2 ⟨i, (List.mem_filter.1 hi).1, rfl⟩)
    · rintro (h | h)
      · exact Or.inl h
      · by_cases hin : k ∈ O.map oKey
        · exact Or.inl hin
        · right
          rcases List.mem_map.1 h with ⟨i, hi, rfl⟩
          refine List.mem_map.2 ⟨i, List.mem_filter.2 ⟨hi, ?_⟩, rfl⟩
          rw [Bool.not_eq_true', List.any_eq_false]
          intro o ho hd
          exact hin (List.mem_map.2 ⟨o, ho, of_decide_eq_true hd⟩)
  · intro r hr
    have hr' : r ∈ outerMergeRows O I := hperm.mem_iff.1 hr
    unfold outerMergeRows at hr'
    rcases List.mem_append.1 hr' with hl | hrr
    · rcases mem_listBind.1 hl with ⟨o, _, hro⟩
      unfold mergeLeftBlock at hro
      by_cases hms : (I.filter (fun i => iKey i = oKey o)).isEmpty = true
      · rw [if_pos hms] at hro
        rcases List.mem_singleton.1 hro with rfl
        refine ⟨rfl, fun h => ?_⟩
        dsimp only at h ⊢
        omega
      · rw [if_neg hms] at hro
        rcases List.mem_map.1 hro with ⟨i, _, rfl⟩
        refine ⟨rfl, fun h => ?_⟩
        dsimp only at h ⊢
        omega
    · rcases List.mem_map.1 hrr with ⟨i, _, rfl⟩
      refine ⟨rfl, fun h => ?_⟩
      dsimp only at h ⊢
      omega

theorem merge_data_round_trip_witness :
    (([⟨"Loc A", (2025, 1), "ACD", 10⟩, ⟨"Loc A", (2025, 1), "Blue", 2⟩] :
        List ORow).map oKey).Nodup
    ∧ (([⟨"Loc A", (2025, 1), "ACD", 3⟩, ⟨"Loc B", (2025, 2), "SST", 7⟩] :
        List IRow).map iKey).Nodup
    ∧ (((merge_data [⟨"Loc A", (2025, 1), "ACD", 10⟩, ⟨"Loc A", (2025, 1), "Blue", 2⟩]
          [⟨"Loc A", (2025, 1), "ACD", 3⟩, ⟨"Loc B", (2025, 2), "SST", 7⟩]).map mKey).Nodup
        ∧ (∀ k : MKey,
            k ∈ (merge_data [⟨"Loc A", (2025, 1), "ACD", 10⟩, ⟨"Loc A", (2025, 1), "Blue", 2⟩]
              [⟨"Loc A", (2025, 1), "ACD", 3⟩, ⟨"Loc B", (2025, 2), "SST", 7⟩]).map mKey ↔
              (k ∈ ([⟨"Loc A", (2025, 1), "ACD", 10⟩, ⟨"Loc A", (2025, 1), "Blue", 2⟩] :
                  List ORow).map oKey
                ∨ k ∈ ([⟨"Loc A", (2025, 1), "ACD", 3⟩, ⟨"Loc B", (2025, 2), "SST", 7⟩] :
                  List IRow).map iKey))
        ∧ ∀ r ∈ merge_data [⟨"Loc A", (2025, 1), "ACD", 10⟩, ⟨"Loc A", (2025, 1), "Blue", 2⟩]
            [⟨"Loc A", (2025, 1), "ACD", 3⟩, ⟨"Loc B", (2025, 2), "SST", 7⟩],
            r.RemainingKits = r.TubesSent - r.SamplesReturned
            ∧ (r.TubesSent < r.SamplesReturned → r.RemainingKits < 0)) :=
  ⟨by decide, by decide,
    merge_data_round_trip
      [⟨"Loc A", (2025, 1), "ACD", 10⟩, ⟨"Loc A", (2025, 1), "Blue", 2⟩]
      [⟨"Loc A", (2025, 1), "ACD", 3⟩, ⟨"Loc B", (2025, 2), "SST", 7⟩]
      (by decide) (by decide)⟩

theorem merge_data_zero_fill_witness :
    ((⟨"Loc B", (2025, 1), "Blue", 0, 4, -4⟩ : MergedRow) ∈
      merge_data [⟨"Loc A", (2025, 1), "ACD", 10⟩] [⟨"Loc B", (2025, 1), "Blue", 4⟩])
    ∧ ((mKey ⟨"Loc B", (2025, 1), "Blue", 0, 4, -4⟩ ∉
          ([⟨"Loc A", (2025, 1), "ACD", 10⟩] : List ORow).map oKey →
        (⟨"Loc B", (2025, 1), "Blue", 0, 4, -4⟩ : MergedRow).TubesSent = 0)
      ∧ (mKey ⟨"Loc B", (2025, 1), "Blue", 0, 4, -4⟩ ∉
          ([⟨"Loc B", (2025, 1), "Blue", 4⟩] : List IRow).map iKey →
        (⟨"Loc B", (2025, 1), "Blue", 0, 4, -4⟩ : MergedRow).SamplesReturned = 0)) :=
  ⟨by decide,
    merge_data_zero_fill [⟨"Loc A", (2025, 1), "ACD", 10⟩]
      [⟨"Loc B", (2025, 1), "Blue", 4⟩]
      ⟨"Loc B", (2025, 1), "Blue", 0, 4, -4⟩ (by decide)⟩

theorem outboundParse_keys_nodup (year : Nat) (f : OutFile) (rows : List ORow)
    (h : outboundParse year f = .ok rows) : (rows.map oKey).Nodup := by
  unfold outboundParse at h
  by_cases hov : f.dataCols.any isOverflowCol = true
  · rw [if_pos hov] at h
    cases h
  · rw [if_neg hov] at h
    by_cases hc : f.dataCols.any isMonthCol = true
    · rw [if_pos hc] at h
      injection h with h'
      have hkeys : rows.map oKey = (groupSum (outTubePairs year f)).map Prod.fst := by
        rw [← h', List.map_map]
        rfl
      rw [hkeys]
      exact groupSum_keys_nodup _
    · rw [if_neg hc] at h
      cases h

theorem inboundParse_keys_nodup (f : InFile) (rows : List IRow)
    (h : inboundParse f = .ok rows) : (rows.map iKey).Nodup := by
  unfold inboundParse at h
  rcases hci : colIdx f.header "Count" with _ | ci
  · rw [hci] at h
    cases h
  · rw [hci] at h
    dsimp only at h
    by_cases hy : "YearMonth" ∈ rHeader f.header
    · rw [if_pos hy] at h
      rcases hli : colIdx f.header "Location" with _ | li <;>
        rcases hti : colIdx f.header "TubeType" with _ | ti <;>
        rw [hli, hti] at h <;> dsimp only at h
      · cases h
      · cases h
      · cases h
      · injection h with h'
        have hkeys : rows.map iKey =
            (groupSum (inPairs li ((colIdx f.header "YearMonth").getD 0) ti ci f.rows)).map
              Prod.fst := by
          rw [← h', List.map_map]
          rfl
        rw [hkeys]
        exact groupSum_keys_nodup _
    · rw [if_neg hy] at h
      cases h

/-- Claim C3 counterexample: an inbound file whose post-rename header contains
no territory column and no location-id column is parsed successfully into
normalized rows; the parser does not return a missing-column error for those
columns (it checks only `YearMonth`). -/
theorem inbound_missing_column_cex :
    inboundParse ⟨["Location", "YearMonth", "color", "Num"],
        [["Loc A", "202501", "ACD", "3"]]⟩ =
      .ok [⟨"Loc A", (2025, 1), "ACD", 3⟩]
    ∧ "Territory" ∉ rHeader ["Location", "YearMonth", "color", "Num"]
    ∧ "LID" ∉ rHeader ["Location", "YearMonth", "color", "Num"] := by
  refine ⟨rfl, by decide, by decide⟩

/-- Claim C3 (amended): the inbound parser's missing-required-column check
covers only the year-month column.  When the post-rename header has a `Count`
column but no `YearMonth` column it returns the missing-column error naming
`YearMonth`; when `YearMonth` is present, no missing-required-column error is
ever returned — a missing location-id or territory column is not detected at
all (and a missing `Location`, `TubeType` or `Count` column instead surfaces
through the broad exception handler as a generic error). -/
theorem inbound_missing_column_check (f : InFile) :
    ("Count" ∈ rHeader f.header → "YearMonth" ∉ rHeader f.header →
      inboundParse f = .error (.missingRequiredColumn "YearMonth"))
    ∧ ("YearMonth" ∈ rHeader f.header →
      ∀ c : String, inboundParse f ≠ .error (.missingRequiredColumn c)) := by
  constructor
  · intro hc hy
    unfold inboundParse
    rcases hci : colIdx f.header "Count" with _ | ci
    · exact absurd hc (colIdx_eq_none_iff.1 hci)
    · dsimp only
      rw [if_neg hy]
  · intro hy c hcon
    unfold inboundParse at hcon
    rcases hci : colIdx f.header "Count" with _ | ci
    · rw [hci] at hcon
      dsimp only at hcon
      simp at hcon
    · rw [hci] at hcon
      dsimp only at hcon
      rw [if_pos hy] at hcon
      rcases hli : colIdx f.header "Location" with _ | li <;>
        rcases hti : colIdx f.header "TubeType" with _ | ti <;>
        rw [hli, hti] at hcon <;> dsimp only at hcon <;> simp at hcon

theorem inbound_missing_column_check_witness :
    (("Count" ∈ rHeader ["Location", "color", "Num"] →
      "YearMonth" ∉ rHeader ["Location", "color", "Num"] →
      inboundParse ⟨["Location", "color", "Num"], [["Loc A", "ACD", "3"]]⟩ =
        .error (.missingRequiredColumn "YearMonth"))
    ∧ ("YearMonth" ∈ rHeader ["Location", "color", "Num"] →
      ∀ c : String,
        inboundParse ⟨["Location", "color", "Num"], [["Loc A", "ACD", "3"]]⟩ ≠
          .error (.missingRequiredColumn c)))
    ∧ inboundParse ⟨["Location", "color", "Num"], [["Loc A", "ACD", "3"]]⟩ =
        .error (.missingRequiredColumn "YearMonth") :=
  ⟨inbound_missing_column_check ⟨["Location", "color", "Num"], [["Loc A", "ACD", "3"]]⟩,
    (inbound_missing_column_check ⟨["Location", "color", "Num"], [["Loc A", "ACD", "3"]]⟩).1
      (by decide) (by decide)⟩

/-- Claim C4 counterexample: the single-month inbound parser performs no
tube-type filtering — a row whose tube-type value is outside the fixed set
{ACD, Blue, Lav, SST} passes through to the normalized output instead of
being dropped. -/
theorem inbound_tube_type_passthrough_cex :
    inboundParse ⟨["Location", "YearMonth", "color", "Num"],
        [["Loc B", "202503", "Weird", "4"]]⟩ =
      .ok [⟨"Loc B", (2025, 3), "Weird", 4⟩]
    ∧ "Weird" ∉ tube_types :=
  ⟨rfl, by decide⟩

/-- Claim C4 (amended): the tube-type restriction to the fixed set exists only
in the monthly-breakdown page's incoming aggregation
(`month_total_incoming`): every entry of its output is keyed by one of the
fixed tube types, and rows whose tube type is outside the fixed set contribute
nothing to the sums and raise no error.  The single-month inbound parser
itself passes every tube-type value through unfiltered (see the
counterexample). -/
theorem month_total_incoming_tube_type_filter (rows extra : List (String × Int))
    (h : ∀ p ∈ extra, p.1 ∉ tube_types) :
    (∀ p ∈ month_total_incoming rows, p.1 ∈ tube_types)
    ∧ month_total_incoming (rows ++ extra) = month_total_incoming rows := by
  constructor
  · intro p hp
    rcases List.mem_map.1 hp with ⟨c, hc, rfl⟩
    exact hc
  · unfold month_total_incoming
    apply List.map_congr_left
    intro c hc
    congr 1
    rw [List.filter_append]
    have hnil : extra.filter (fun p => p.1 = c) = [] := by
      rw [List.filter_eq_nil_iff]
      intro p hp hpc
      exact h p hp (by rw [of_decide_eq_true hpc]; exact hc)
    rw [hnil, List.append_nil]

theorem month_total_incoming_tube_type_filter_witness :
    (∀ p ∈ ([("Pink", 2)] : List (String × Int)), p.1 ∉ tube_types)
    ∧ ((∀ p ∈ month_total_incoming [("ACD", 5), ("Blue", 3)], p.1 ∈ tube_types)
      ∧ month_total_incoming ([("ACD", 5), ("Blue", 3)] ++ [("Pink", 2)]) =
          month_total_incoming [("ACD", 5), ("Blue", 3)]) :=
  ⟨by decide,
    month_total_incoming_tube_type_filter [("ACD", 5), ("Blue", 3)] [("Pink", 2)]
      (by decide)⟩

theorem colVals_eq (f : InFile) {n : String} {i : Nat}
    (h : colIdx f.header n = some i) :
    colVals f n = f.rows.map (fun r => cellAt r i) := by
  unfold colVals
  rw [h]

theorem inPairs_congr {rows rows' : List (List String)} (li yi ti ci : Nat)
    (hl : rows.map (fun r => cellAt r li) = rows'.map (fun r => cellAt r li))
    (hy : rows.map (fun r => cellAt r yi) = rows'.map (fun r => cellAt r yi))
    (ht : rows.map (fun r => cellAt r ti) = rows'.map (fun r => cellAt r ti))
    (hc : rows.map (fun r => cellAt r ci) = rows'.map (fun r => cellAt r ci)) :
    inPairs li yi ti ci rows = inPairs li yi ti ci rows' := by
  induction rows generalizing rows' with
  | nil =>
    cases rows' with
    | nil => rfl
    | cons r' t' => simp at hl
  | cons r t ih =>
    cases rows' with
    | nil => simp at hl
    | cons r' t' =>
      simp only [List.map_cons, List.cons.injEq] at hl hy ht hc
      unfold inPairs
      simp only [List.filterMap_cons]
      rw [hl.1, hy.1, ht.1, hc.1]
      have hrec := ih hl.2 hy.2 ht.2 hc.2
      unfold inPairs at hrec
      rw [hrec]

/-- Claim C5 counterexample: two inbound files identical except for their
`Territory` (and `LID`) column values parse to literally identical normalized
rows — the inbound aggregation groups only by (`Location`, `YearMonth`,
`TubeType`) and discards territory and location-id entirely, so no reconciled
row can carry an inbound-preferred location-id or territory. -/
theorem reconcile_territory_dropped_cex :
    inboundParse ⟨["LID", "Location", "Territory", "YearMonth", "color", "Num"],
        [["7", "Loc A", "Terr1", "202501", "ACD", "3"]]⟩ =
      .ok [⟨"Loc A", (2025, 1), "ACD", 3⟩]
    ∧ inboundParse ⟨["LID", "Location", "Territory", "YearMonth", "color", "Num"],
        [["8", "Loc A", "Terr2", "202501", "ACD", "3"]]⟩ =
      .ok [⟨"Loc A", (2025, 1), "ACD", 3⟩]
    ∧ colVals ⟨["LID", "Location", "Territory", "YearMonth", "color", "Num"],
        [["7", "Loc A", "Terr1", "202501", "ACD", "3"]]⟩ "Territory" ≠
      colVals ⟨["LID", "Location", "Territory", "YearMonth", "color", "Num"],
        [["8", "Loc A", "Terr2", "202501", "ACD", "3"]]⟩ "Territory" :=
  ⟨rfl, rfl, by decide⟩

/-- Claim C5 (amended): reconciled rows carry no location-id and no territory.
Both parsers discard every identity column other than the location name in
their final group-by, so the inbound parse depends only on the `Location`,
`YearMonth`, `TubeType` and `Count` columns (changing any other column,
territory or location-id included, leaves the output unchanged), and the
outbound parse is invariant under any rewriting of the territory
(`Location_Code`) identity field. -/
theorem parse_ignores_identity_columns (year : Nat) (fi fi' : InFile) (fo : OutFile)
    (t : OutRecord → String)
    (hh : fi'.header = fi.header)
    (hL : colVals fi "Location" = colVals fi' "Location")
    (hY : colVals fi "YearMonth" = colVals fi' "YearMonth")
    (hT : colVals fi "TubeType" = colVals fi' "TubeType")
    (hC : colVals fi "Count" = colVals fi' "Count") :
    inboundParse fi = inboundParse fi'
    ∧ outboundParse year
        { fo with records := fo.records.map (fun r => { r with Location_Code := t r }) } =
      outboundParse year fo := by
  constructor
  · unfold inboundParse
    rw [hh]
    rcases hci : colIdx fi.header "Count" with _ | ci
    · rfl
    · dsimp only
      by_cases hy : "YearMonth" ∈ rHeader fi.header
      · simp only [if_pos hy]
        rcases hli : colIdx fi.header "Location" with _ | li
        · rfl
        · rcases hti : colIdx fi.header "TubeType" with _ | ti
          · rfl
          · dsimp only
            rcases hYi : colIdx fi.header "YearMonth" with _ | yi
            · exact absurd (colIdx_eq_none_iff.1 hYi) (by simpa using hy)
            · dsimp only [Option.getD]
              have hli' : colIdx fi'.header "Location" = some li := by rw [hh]; exact hli
              have hti' : colIdx fi'.header "TubeType" = some ti := by rw [hh]; exact hti
              have hci' : colIdx fi'.header "Count" = some ci := by rw [hh]; exact hci
              have hYi' : colIdx fi'.header "YearMonth" = some yi := by rw [hh]; exact hYi
              have h1 : fi.rows.map (fun r => cellAt r li) =
                  fi'.rows.map (fun r => cellAt r li) :=
                (colVals_eq fi hli).symm.trans (hL.trans (colVals_eq fi' hli'))
              have h2 : fi.rows.map (fun r => cellAt r yi) =
                  fi'.rows.map (fun r => cellAt r yi) :=
                (colVals_eq fi hYi).symm.trans (hY.trans (colVals_eq fi' hYi'))
              have h3 : fi.rows.map (fun r => cellAt r ti) =
                  fi'.rows.map (fun r => cellAt r ti) :=
                (colVals_eq fi hti).symm.trans (hT.trans (colVals_eq fi' hti'))
              have h4 : fi.rows.map (fun r => cellAt r ci) =
                  fi'.rows.map (fun r => cellAt r ci) :=
                (colVals_eq fi hci).symm.trans (hC.trans (colVals_eq fi' hci'))
              rw [inPairs_congr li yi ti ci h1 h2 h3 h4]
      · simp only [if_neg hy]
  · have hmelt : outMelt
        { fo with records := fo.records.map (fun r => { r with Location_Code := t r }) } =
        outMelt fo := by
      unfold outMelt
      dsimp only
      rw [listBind_map]
    have hpairs : outTubePairs year
        { fo with records := fo.records.map (fun r => { r with Location_Code := t r }) } =
        outTubePairs year fo := by
      unfold outTubePairs goodMelt
      rw [hmelt]
    unfold outboundParse
    dsimp only
    rw [hpairs]

theorem parse_ignores_identity_columns_witness :
    inboundParse ⟨["LID", "Location", "Territory", "YearMonth", "color", "Num"],
        [["7", "Loc A", "Terr1", "202501", "ACD", "3"]]⟩ =
      inboundParse ⟨["LID", "Location", "Territory", "YearMonth", "color", "Num"],
        [["8", "Loc A", "Terr2", "202501", "ACD", "3"]]⟩
    ∧ outboundParse 2025
        { (⟨[⟨.parsed 1, "MNT Kit Only (2 ACD)"⟩],
            [⟨"O1", "Loc A", "Terr1", "Rep1", ["2"]⟩]⟩ : OutFile) with
          records := ([⟨"O1", "Loc A", "Terr1", "Rep1", ["2"]⟩] : List OutRecord).map
            (fun r => { r with Location_Code := (fun _ => "Terr9") r }) } =
      outboundParse 2025
        ⟨[⟨.parsed 1, "MNT Kit Only (2 ACD)"⟩], [⟨"O1", "Loc A", "Terr1", "Rep1", ["2"]⟩]⟩ :=
  parse_ignores_identity_columns 2025
    ⟨["LID", "Location", "Territory", "YearMonth", "color", "Num"],
      [["7", "Loc A", "Terr1", "202501", "ACD", "3"]]⟩
    ⟨["LID", "Location", "Territory", "YearMonth", "color", "Num"],
      [["8", "Loc A", "Terr2", "202501", "ACD", "3"]]⟩
    ⟨[⟨.parsed 1, "MNT Kit Only (2 ACD)"⟩], [⟨"O1", "Loc A", "Terr1", "Rep1", ["2"]⟩]⟩
    (fun _ => "Terr9") rfl (by decide) (by decide) (by decide) (by decide)

theorem meltCell_valueErr (loc d v : String) : meltCell loc (⟨.valueErr, d⟩, v) = none := rfl

theorem meltCell_overflowErr (loc d v : String) :
    meltCell loc (⟨.overflowErr, d⟩, v) = none := rfl

theorem meltCell_pos (loc d v : String) (m : Int) (h : (0 : Int) ≤ m) :
    meltCell loc (⟨.parsed m, d⟩, v) = some ⟨loc, m, d, toCount v⟩ := by
  have hm : isMonthCol ⟨.parsed m, d⟩ = true := by
    unfold isMonthCol
    exact decide_eq_true h
  unfold meltCell
  dsimp only
  rw [if_pos hm]
  rfl

theorem meltCell_neg (loc d v : String) (m : Int) (h : ¬(0 : Int) ≤ m) :
    meltCell loc (⟨.parsed m, d⟩, v) = none := by
  have hm : ¬isMonthCol ⟨.parsed m, d⟩ = true := by
    unfold isMonthCol
    simpa using h
  unfold meltCell
  dsimp only
  rw [if_neg hm]

theorem meltCell_month_filter (loc : String) (zl : List (OutCol × String)) :
    (zl.filterMap (meltCell loc)).filter monthOK =
      (zl.filter (fun cc => goodCol cc.1)).filterMap (meltCell loc) := by
  induction zl with
  | nil => rfl
  | cons cc t ih =>
    obtain ⟨c, v⟩ := cc
    obtain ⟨tok, d⟩ := c
    rw [List.filterMap_cons, List.filter_cons]
    cases tok with
    | valueErr =>
      rw [meltCell_valueErr]
      dsimp only
      rw [if_neg (by simp [goodCol])]
      exact ih
    | overflowErr =>
      rw [meltCell_overflowErr]
      dsimp only
      rw [if_neg (by simp [goodCol])]
      exact ih
    | parsed m =>
      by_cases h1 : 1 ≤ m ∧ m ≤ 12
      · have h0 : (0 : Int) ≤ m := by omega
        rw [meltCell_pos loc d v m h0]
        dsimp only
        rw [List.filter_cons,
          if_pos (show monthOK ⟨loc, m, d, toCount v⟩ = true by
            unfold monthOK; exact decide_eq_true h1),
          if_pos (show goodCol ⟨.parsed m, d⟩ = true by
            unfold goodCol; exact decide_eq_true h1),
          List.filterMap_cons, meltCell_pos loc d v m h0, ih]
      · by_cases h0 : (0 : Int) ≤ m
        · rw [meltCell_pos loc d v m h0]
          dsimp only
          rw [List.filter_cons,
            if_neg (show ¬monthOK ⟨loc, m, d, toCount v⟩ = true by
              unfold monthOK; simpa using h1),
            if_neg (show ¬goodCol ⟨.parsed m, d⟩ = true by
              unfold goodCol; simpa using h1)]
          exact ih
        · rw [meltCell_neg loc d v m h0]
          dsimp only
          rw [if_neg (show ¬goodCol ⟨.parsed m, d⟩ = true by
            unfold goodCol; simp; omega)]
          exact ih

theorem goodMelt_eq_bind (f : OutFile) :
    goodMelt f = listBind f.records (fun r =>
      (((f.dataCols.zip r.cells).filterMap (meltCell r.Location)).filter monthOK).filter
        (fun x => decide (0 < x.KitCount))) := by
  unfold goodMelt outMelt
  rw [filter_listBind, filter_listBind]

theorem goodMelt_keepGoodCols (f : OutFile) (hrect : OutRect f) :
    goodMelt (keepGoodCols f) = goodMelt f := by
  rw [goodMelt_eq_bind, goodMelt_eq_bind]
  unfold keepGoodCols
  dsimp only
  rw [listBind_map]
  apply listBind_congr
  intro r hr
  have hlen : r.cells.length = f.dataCols.length := hrect r hr
  have hfst : ((f.dataCols.zip r.cells).filter (fun cc => goodCol cc.1)).map Prod.fst =
      f.dataCols.filter goodCol := by
    have hfm := List.filter_map (p := goodCol) Prod.fst (f.dataCols.zip r.cells)
    rw [List.map_fst_zip _ _ (le_of_eq hlen.symm)] at hfm
    exact hfm.symm
  have hzip : (f.dataCols.filter goodCol).zip
      (((f.dataCols.zip r.cells).filter (fun cc => goodCol cc.1)).map Prod.snd) =
      (f.dataCols.zip r.cells).filter (fun cc => goodCol cc.1) := by
    conv_lhs => rw [← hfst]
    exact zip_fst_snd _
  dsimp only
  rw [hzip, meltCell_month_filter, meltCell_month_filter, List.filter_filter]
  simp only [Bool.and_self]

/-- Claim C6 counterexample: an outbound data column whose row-0 month token
is accepted by `float()` as an infinity (for example `"inf"` or `"1e400"`)
makes `int(float(token))` raise `OverflowError`, which the
`except ValueError` handler does not catch: the whole outbound file aborts
with a generic error, while the same file without that column parses
successfully — so such a column's presence does, by itself, fail the parse. -/
theorem outbound_overflow_month_token_cex :
    outboundParse 2025 ⟨[⟨.parsed 1, "MNT Kit Only (2 ACD)"⟩,
        ⟨.overflowErr, "MNT Kit Only (2 ACD)"⟩],
      [⟨"O1", "Loc A", "Terr1", "Rep1", ["2", "3"]⟩]⟩ =
      .error (.pandasError "OverflowError")
    ∧ outboundParse 2025 ⟨[⟨.parsed 1, "MNT Kit Only (2 ACD)"⟩],
        [⟨"O1", "Loc A", "Terr1", "Rep1", ["2"]⟩]⟩ =
      .ok [⟨"Loc A", (2025, 1), "ACD", 4⟩] :=
  ⟨rfl, rfl⟩

/-- Claim C6 (amended): an outbound data column whose row-0 month token fails
`int(float(.))` with `ValueError` (a non-numeric token, named
`_Month_Unknown_i`) or parses to an integer outside 1..12 (dropped at the
year-month coerce) contributes no normalized row from any of its values and
does not by itself make the parse fail: when no month token overflows,
removing all such columns, cells and all, leaves the result of the outbound
parse — including its error status — unchanged.  But a month token whose
float is infinite raises an uncaught `OverflowError` and aborts the whole
file with a generic error.  The hypothesis `hgood` reflects that at least one
genuine month column exists (a file with only fake month columns hits the
no-kit-columns-found guard once they are removed); `hrect` states the frame is
rectangular, as a DataFrame is. -/
theorem outbound_bad_month_columns_dropped (year : Nat) (f : OutFile)
    (hrect : OutRect f)
    (hgood : f.dataCols.any goodCol = true) :
    ((∀ c ∈ f.dataCols, c.monthTok ≠ MonthTok.overflowErr) →
      outboundParse year (keepGoodCols f) = outboundParse year f)
    ∧ ∀ c ∈ f.dataCols, c.monthTok = MonthTok.overflowErr →
      outboundParse year f = .error (.pandasError "OverflowError") := by
  constructor
  · intro hno
    have hov : f.dataCols.any isOverflowCol = false := by
      rw [List.any_eq_false]
      intro c hc
      have hcno := hno c hc
      unfold isOverflowCol
      cases hm : c.monthTok with
      | parsed m => simp
      | valueErr => simp
      | overflowErr => exact absurd hm hcno
    have hov' : (keepGoodCols f).dataCols.any isOverflowCol = false := by
      rw [List.any_eq_false]
      intro c hc
      unfold keepGoodCols at hc
      dsimp only at hc
      exact List.any_eq_false.1 hov c (List.mem_filter.1 hc).1
    have hmonth : f.dataCols.any isMonthCol = true := by
      rcases List.any_eq_true.1 hgood with ⟨c, hc, hgc⟩
      exact List.any_eq_true.2 ⟨c, hc, goodCol_isMonthCol hgc⟩
    have hmonth' : (keepGoodCols f).dataCols.any isMonthCol = true := by
      rcases List.any_eq_true.1 hgood with ⟨c, hc, hgc⟩
      refine List.any_eq_true.2 ⟨c, ?_, goodCol_isMonthCol hgc⟩
      unfold keepGoodCols
      dsimp only
      exact List.mem_filter.2 ⟨hc, hgc⟩
    unfold outboundParse
    rw [if_neg (show ¬(keepGoodCols f).dataCols.any isOverflowCol = true by simp [hov']),
      if_neg (show ¬f.dataCols.any isOverflowCol = true by simp [hov]),
      if_pos hmonth', if_pos hmonth]
    have hpairs : outTubePairs year (keepGoodCols f) = outTubePairs year f := by
      unfold outTubePairs
      rw [goodMelt_keepGoodCols f hrect]
    rw [hpairs]
  · intro c hc hovc
    have hov : f.dataCols.any isOverflowCol = true := by
      refine List.any_eq_true.2 ⟨c, hc, ?_⟩
      unfold isOverflowCol
      rw [hovc]
    unfold outboundParse
    rw [if_pos hov]

theorem outbound_bad_month_columns_dropped_witness :
    OutRect ⟨[⟨.parsed 1, "MNT Kit Only (2 ACD)"⟩, ⟨.parsed 13, "MNT Kit Only (2 ACD)"⟩,
        ⟨.valueErr, "MNT Kit Only (2 ACD)"⟩],
      [⟨"O1", "Loc A", "Terr1", "Rep1", ["2", "5", "7"]⟩]⟩
    ∧ (([⟨.parsed 1, "MNT Kit Only (2 ACD)"⟩, ⟨.parsed 13, "MNT Kit Only (2 ACD)"⟩,
        ⟨.valueErr, "MNT Kit Only (2 ACD)"⟩] : List OutCol).any goodCol = true)
    ∧ (((∀ c ∈ ([⟨.parsed 1, "MNT Kit Only (2 ACD)"⟩, ⟨.parsed 13, "MNT Kit Only (2 ACD)"⟩,
          ⟨.valueErr, "MNT Kit Only (2 ACD)"⟩] : List OutCol),
          c.monthTok ≠ MonthTok.overflowErr) →
        outboundParse 2025
          (keepGoodCols ⟨[⟨.parsed 1, "MNT Kit Only (2 ACD)"⟩,
              ⟨.parsed 13, "MNT Kit Only (2 ACD)"⟩, ⟨.valueErr, "MNT Kit Only (2 ACD)"⟩],
            [⟨"O1", "Loc A", "Terr1", "Rep1", ["2", "5", "7"]⟩]⟩) =
          outboundParse 2025 ⟨[⟨.parsed 1, "MNT Kit Only (2 ACD)"⟩,
              ⟨.parsed 13, "MNT Kit Only (2 ACD)"⟩, ⟨.valueErr, "MNT Kit Only (2 ACD)"⟩],
            [⟨"O1", "Loc A", "Terr1", "Rep1", ["2", "5", "7"]⟩]⟩)
      ∧ ∀ c ∈ ([⟨.parsed 1, "MNT Kit Only (2 ACD)"⟩, ⟨.parsed 13, "MNT Kit Only (2 ACD)"⟩,
          ⟨.valueErr, "MNT Kit Only (2 ACD)"⟩] : List OutCol),
          c.monthTok = MonthTok.overflowErr →
          outboundParse 2025 ⟨[⟨.parsed 1, "MNT Kit Only (2 ACD)"⟩,
              ⟨.parsed 13, "MNT Kit Only (2 ACD)"⟩, ⟨.valueErr, "MNT Kit Only (2 ACD)"⟩],
            [⟨"O1", "Loc A", "Terr1", "Rep1", ["2", "5", "7"]⟩]⟩ =
            .error (.pandasError "OverflowError")) :=
  ⟨by decide, by decide,
    outbound_bad_month_columns_dropped 2025
      ⟨[⟨.parsed 1, "MNT Kit Only (2 ACD)"⟩, ⟨.parsed 13, "MNT Kit Only (2 ACD)"⟩,
          ⟨.valueErr, "MNT Kit Only (2 ACD)"⟩],
        [⟨"O1", "Loc A", "Terr1", "Rep1", ["2", "5", "7"]⟩]⟩
      (by decide) (by decide)⟩

theorem listBind_filterMap_single {α β γ : Type} (l : List α) (x : γ)
    (g : α → γ → Option β) :
    listBind l (fun a => ([x].filterMap (g a))) = l.filterMap (fun a => g a x) := by
  induction l with
  | nil => rfl
  | cons a t ih =>
    show ([x].filterMap (g a)) ++ listBind t (fun a => [x].filterMap (g a)) =
      List.filterMap (fun a => g a x) (a :: t)
    rw [ih, List.filterMap_cons]
    cases hga : g a x <;>
      simp [List.filterMap_cons, List.filterMap_nil, hga]

/-- Claim C8: a single outbound record with kit count 3 under a description
that the catalog maps to two ACD tubes and one Blue tube per kit normalizes to
exactly the rows (ACD, 6 tubes sent) and (Blue, 3 tubes sent) for that
location and month, with no Lav or SST row. -/
theorem outbound_kit_decomposition (year : Nat) (oid loc terr rep D : String) (m : Int)
    (hm1 : 1 ≤ m) (hm2 : m ≤ 12)
    (hD : kit_to_tube.lookup D = some [("ACD", 2), ("Blue", 1)]) :
    outboundParse year ⟨[⟨.parsed m, D⟩], [⟨oid, loc, terr, rep, ["3"]⟩]⟩ =
      .ok [⟨loc, (year, m.toNat), "ACD", 6⟩, ⟨loc, (year, m.toNat), "Blue", 3⟩]
    ∧ ∀ rows : List ORow,
        outboundParse year ⟨[⟨.parsed m, D⟩], [⟨oid, loc, terr, rep, ["3"]⟩]⟩ = .ok rows →
        (⟨loc, (year, m.toNat), "ACD", 6⟩ : ORow) ∈ rows
        ∧ (⟨loc, (year, m.toNat), "Blue", 3⟩ : ORow) ∈ rows
        ∧ ∀ r ∈ rows, r.TubeType ≠ "Lav" ∧ r.TubeType ≠ "SST" := by
  have h0 : (0 : Int) ≤ m := by omega
  have hq1 : tubeQty D "ACD" = 2 := by unfold tubeQty; rw [hD]; rfl
  have hq2 : tubeQty D "Blue" = 1 := by unfold tubeQty; rw [hD]; rfl
  have hq3 : tubeQty D "Lav" = 0 := by unfold tubeQty; rw [hD]; rfl
  have hq4 : tubeQty D "SST" = 0 := by unfold tubeQty; rw [hD]; rfl
  have hmelt : goodMelt ⟨[⟨.parsed m, D⟩], [⟨oid, loc, terr, rep, ["3"]⟩]⟩ =
      [⟨loc, m, D, 3⟩] := by
    unfold goodMelt outMelt
    simp only [listBind]
    rw [show (([⟨.parsed m, D⟩] : List OutCol).zip ["3"]) = [(⟨.parsed m, D⟩, "3")] from rfl]
    rw [List.filterMap_cons, meltCell_pos loc D "3" m h0,
      show toCount "3" = (3 : Int) from by decide]
    dsimp only [List.filterMap_nil]
    rw [List.append_nil, List.filter_cons,
      if_pos (show monthOK ⟨loc, m, D, 3⟩ = true from by
        unfold monthOK; exact decide_eq_true ⟨hm1, hm2⟩),
      List.filter_nil, List.filter_cons,
      if_pos (show decide ((0 : Int) < (⟨loc, m, D, 3⟩ : MeltedRow).KitCount) = true from
        decide_eq_true (show (0 : Int) < 3 by norm_num)),
      List.filter_nil]
  have hpairs : outTubePairs year ⟨[⟨.parsed m, D⟩], [⟨oid, loc, terr, rep, ["3"]⟩]⟩ =
      [((loc, (year, m.toNat), "ACD"), 6), ((loc, (year, m.toNat), "Blue"), 3)] := by
    unfold outTubePairs
    rw [hmelt]
    rw [listBind_filterMap_single tube_types (⟨loc, m, D, 3⟩ : MeltedRow)
      (fun tt r =>
        if 0 < r.KitCount * tubeQty r.KitDescription tt then
          some ((r.Location, (year, r.month.toNat), tt), r.KitCount * tubeQty r.KitDescription tt)
        else none)]
    unfold tube_types
    rw [List.filterMap_cons, List.filterMap_cons, List.filterMap_cons, List.filterMap_cons,
      List.filterMap_nil]
    dsimp only
    rw [hq1, hq2, hq3, hq4]
    norm_num
  have hmonth : ([⟨.parsed m, D⟩] : List OutCol).any isMonthCol = true := by
    have hc : isMonthCol ⟨.parsed m, D⟩ = true := by
      unfold isMonthCol
      exact decide_eq_true h0
    simp [hc]
  have hmain : outboundParse year ⟨[⟨.parsed m, D⟩], [⟨oid, loc, terr, rep, ["3"]⟩]⟩ =
      .ok [⟨loc, (year, m.toNat), "ACD", 6⟩, ⟨loc, (year, m.toNat), "Blue", 3⟩] := by
    unfold outboundParse
    rw [if_neg (show ¬([⟨.parsed m, D⟩] : List OutCol).any isOverflowCol = true by
        simp [isOverflowCol]),
      if_pos hmonth, hpairs]
    unfold groupSum
    rw [show (([((loc, (year, m.toNat), "ACD"), 6), ((loc, (year, m.toNat), "Blue"), 3)] :
        List (MKey × Int)).map Prod.fst) =
      [(loc, (year, m.toNat), "ACD"), (loc, (year, m.toNat), "Blue")] from rfl]
    rw [List.dedup_cons_of_not_mem (by simp), List.dedup_cons_of_not_mem (by simp),
      List.dedup_nil]
    simp

  refine ⟨hmain, ?_⟩
  intro rows hrows
  rw [hmain] at hrows
  injection hrows with hrows
  subst hrows
  refine ⟨by simp, by simp, ?_⟩
  intro r hr
  rcases List.mem_cons.1 hr with rfl | hr2
  · exact ⟨by simp, by simp⟩
  · rcases List.mem_cons.1 hr2 with rfl | hr3
    · exact ⟨by simp, by simp⟩
    · cases hr3

theorem outbound_kit_decomposition_witness :
    (1 : Int) ≤ 1 ∧ (1 : Int) ≤ 12
    ∧ kit_to_tube.lookup "MNT & Telomere Kit (2 ACD, 1 Blue Sodium Citrate)" =
        some [("ACD", 2), ("Blue", 1)]
    ∧ (outboundParse 2025
        ⟨[⟨.parsed 1, "MNT & Telomere Kit (2 ACD, 1 Blue Sodium Citrate)"⟩],
          [⟨"O1", "Loc A", "Terr1", "Rep1", ["3"]⟩]⟩ =
        .ok [⟨"Loc A", (2025, 1), "ACD", 6⟩, ⟨"Loc A", (2025, 1), "Blue", 3⟩]
      ∧ ∀ rows : List ORow,
          outboundParse 2025
            ⟨[⟨.parsed 1, "MNT & Telomere Kit (2 ACD, 1 Blue Sodium Citrate)"⟩],
              [⟨"O1", "Loc A", "Terr1", "Rep1", ["3"]⟩]⟩ = .ok rows →
          (⟨"Loc A", (2025, 1), "ACD", 6⟩ : ORow) ∈ rows
          ∧ (⟨"Loc A", (2025, 1), "Blue", 3⟩ : ORow) ∈ rows
          ∧ ∀ r ∈ rows, r.TubeType ≠ "Lav" ∧ r.TubeType ≠ "SST") :=
  ⟨by decide, by decide, by decide,
    outbound_kit_decomposition 2025 "O1" "Loc A" "Terr1" "Rep1"
      "MNT & Telomere Kit (2 ACD, 1 Blue Sodium Citrate)" 1
      (by decide) (by decide) (by decide)⟩

/-- Claim C9 counterexample: `generate_alerts` applies no exclusion marker of
any kind — a reconciled row whose location is "DTC Channel" (which contains the
marker "DTC") still appears in the aggregated alert output whenever its
remaining value passes the threshold filter. -/
theorem generate_alerts_no_exclusion_cex :
    containsSub "DTC" "DTC Channel" = true
    ∧ generate_alerts [⟨"DTC Channel", (2025, 1), "ACD", 100, 0, 100⟩] 50 =
        some [(("DTC Channel", (2025, 1)), 100)] := by
  exact ⟨by decide, by decide⟩

/-- Claim C9 (amended): the alert aggregation filters rows only by
`RemainingKits` strictly above the (non-negative) threshold — never by any
location or territory marker — and groups the surviving rows by (location,
month), summing `RemainingKits` per group: the output (whose order is the
descending sort by total) has exactly one entry per distinct (location, month)
key among the surviving rows, each entry's total is the sum of the surviving
rows of its key, and appending a row at or below the threshold leaves the
output unchanged. -/
theorem generate_alerts_threshold_aggregation (rows : List MergedRow) (t : Int)
    (x : MergedRow) (ht : 0 ≤ t) (hx : x.RemainingKits ≤ t) :
    ∃ out, generate_alerts rows t = some out
      ∧ (out.map Prod.fst).Nodup
      ∧ (∀ k : String × (Nat × Nat), k ∈ out.map Prod.fst ↔
          k ∈ (rows.filter (fun r => decide (t < r.RemainingKits))).map
            (fun r => (r.Location, r.YearMonth)))
      ∧ (∀ p ∈ out, p.2 =
          (((rows.filter (fun r => decide (t < r.RemainingKits))).filter
            (fun r => (r.Location, r.YearMonth) = p.1)).map
            (fun r => r.RemainingKits)).sum)
      ∧ generate_alerts (rows ++ [x]) t = generate_alerts rows t := by
  have hneg : ¬t < 0 := by omega
  refine ⟨sortLe totalDesc (groupSum
    ((rows.filter (fun r => decide (t < r.RemainingKits))).map
      (fun r => ((r.Location, r.YearMonth), r.RemainingKits)))), ?_, ?_, ?_, ?_, ?_⟩
  · unfold generate_alerts
    rw [if_neg hneg]
  · have hperm := (sortLe_perm totalDesc (groupSum
      ((rows.filter (fun r => decide (t < r.RemainingKits))).map
        (fun r => ((r.Location, r.YearMonth), r.RemainingKits))))).map Prod.fst
    rw [hperm.nodup_iff]
    exact groupSum_keys_nodup _
  · intro k
    have hperm := (sortLe_perm totalDesc (groupSum
      ((rows.filter (fun r => decide (t < r.RemainingKits))).map
        (fun r => ((r.Location, r.YearMonth), r.RemainingKits))))).map Prod.fst
    rw [hperm.mem_iff, mem_map_fst_groupSum, List.map_map]
    rfl
  · intro p hp
    have hperm := sortLe_perm totalDesc (groupSum
      ((rows.filter (fun r => decide (t < r.RemainingKits))).map
        (fun r => ((r.Location, r.YearMonth), r.RemainingKits))))
    have hp' := hperm.mem_iff.1 hp
    have hsum := (mem_groupSum hp').2
    have hfm : ((rows.filter (fun r => decide (t < r.RemainingKits))).map
        (fun r => ((r.Location, r.YearMonth), r.RemainingKits))).filter
          (fun q => q.1 = p.1) =
        ((rows.filter (fun r => decide (t < r.RemainingKits))).filter
          (fun r => (r.Location, r.YearMonth) = p.1)).map
          (fun r => ((r.Location, r.YearMonth), r.RemainingKits)) :=
      List.filter_map _ _
    rw [hfm, List.map_map] at hsum
    exact hsum
  · unfold generate_alerts
    rw [if_neg hneg, List.filter_append]
    have hnil : ([x].filter (fun r => decide (t < r.RemainingKits))) = [] := by
      rw [List.filter_eq_nil_iff]
      intro a ha hd
      rcases List.mem_singleton.1 ha with rfl
      have := of_decide_eq_true hd
      omega
    rw [hnil, List.append_nil, if_neg hneg]

theorem generate_alerts_threshold_aggregation_witness :
    (0 : Int) ≤ 50
    ∧ ((⟨"Loc C", (2025, 2), "SST", 40, 10, 30⟩ : MergedRow).RemainingKits ≤ 50)
    ∧ ∃ out,
        generate_alerts [⟨"Loc A", (2025, 1), "ACD", 100, 0, 100⟩,
          ⟨"Loc B", (2025, 1), "Blue", 60, 55, 5⟩] 50 = some out
        ∧ (out.map Prod.fst).Nodup
        ∧ (∀ k : String × (Nat × Nat), k ∈ out.map Prod.fst ↔
            k ∈ (([⟨"Loc A", (2025, 1), "ACD", 100, 0, 100⟩,
              ⟨"Loc B", (2025, 1), "Blue", 60, 55, 5⟩] : List MergedRow).filter
                (fun r => decide ((50 : Int) < r.RemainingKits))).map
              (fun r => (r.Location, r.YearMonth)))
        ∧ (∀ p ∈ out, p.2 =
            ((((([⟨"Loc A", (2025, 1), "ACD", 100, 0, 100⟩,
              ⟨"Loc B", (2025, 1), "Blue", 60, 55, 5⟩] : List MergedRow)).filter
                (fun r => decide ((50 : Int) < r.RemainingKits))).filter
              (fun r => (r.Location, r.YearMonth) = p.1)).map
              (fun r => r.RemainingKits)).sum)
        ∧ generate_alerts ([⟨"Loc A", (2025, 1), "ACD", 100, 0, 100⟩,
            ⟨"Loc B", (2025, 1), "Blue", 60, 55, 5⟩] ++
            [⟨"Loc C", (2025, 2), "SST", 40, 10, 30⟩]) 50 =
          generate_alerts [⟨"Loc A", (2025, 1), "ACD", 100, 0, 100⟩,
            ⟨"Loc B", (2025, 1), "Blue", 60, 55, 5⟩] 50 :=
  ⟨by decide, by decide,
    generate_alerts_threshold_aggregation
      [⟨"Loc A", (2025, 1), "ACD", 100, 0, 100⟩, ⟨"Loc B", (2025, 1), "Blue", 60, 55, 5⟩]
      50 ⟨"Loc C", (2025, 2), "SST", 40, 10, 30⟩ (by decide) (by decide)⟩
